import Mathlib

/-!
Verification of the Axon study-queue engine
(`supabase/functions/server/routes-study-queue.tsx` and the
`get_course_summary_ids` SQL migration).

The TypeScript code is shallowly embedded over the reals: timestamps are
milliseconds since the epoch (`ℝ`), `Math.exp` is `Real.exp`, and the three
fetched tables are lists of records.  Query failures of the Supabase client
(which resolve to a `null` `data` field, never an exception) are modelled by
explicit fault flags.
-/

namespace StudyQueue

/-- Milliseconds in one day, the divisor `1000 * 60 * 60 * 24` used by the
source for every day-difference computation. -/
def msPerDay : ℝ := 86400000

/-- The NEED_CONFIG constant of the source: the four NeedScore weights and
the overdue grace period in days. -/
structure NeedConfig where
  overdueWeight : ℝ
  masteryWeight : ℝ
  fragilityWeight : ℝ
  noveltyWeight : ℝ
  graceDays : ℝ

/-- NEED_CONFIG from the source (weights 0.40 / 0.30 / 0.20 / 0.10, grace 1 day). -/
def NEED_CONFIG : NeedConfig where
  overdueWeight := 0.40
  masteryWeight := 0.30
  fragilityWeight := 0.20
  noveltyWeight := 0.10
  graceDays := 1

/-- Input record of `calculateNeedScore`.  `dueAt` is `null` (`none`) for a
card that was never scheduled; timestamps are milliseconds since the epoch. -/
structure NeedScoreInput where
  dueAt : Option ℝ
  fsrsLapses : ℕ
  fsrsReps : ℕ
  fsrsState : String
  fsrsStability : ℝ
  pKnow : ℝ

/-- The `calculateNeedScore` function of the source: four factors (overdue,
mastery need, fragility, novelty) combined with the NEED_CONFIG weights and
clamped to [0,1]. -/
noncomputable def calculateNeedScore (input : NeedScoreInput) (now : ℝ) : ℝ :=
  let overdue : ℝ :=
    match input.dueAt with
    | none => 1.0
    | some dueDate =>
        let daysOverdue := (now - dueDate) / msPerDay
        if daysOverdue > 0 then 1 - Real.exp (-daysOverdue / NEED_CONFIG.graceDays)
        else 0
  let needMastery := 1 - input.pKnow
  let needFragility :=
    min 1 ((input.fsrsLapses : ℝ) / max 1 ((input.fsrsReps : ℝ) + (input.fsrsLapses : ℝ) + 1))
  let needNovelty : ℝ := if input.fsrsState = "new" then 1.0 else 0.0
  let score :=
    NEED_CONFIG.overdueWeight * overdue +
    NEED_CONFIG.masteryWeight * needMastery +
    NEED_CONFIG.fragilityWeight * needFragility +
    NEED_CONFIG.noveltyWeight * needNovelty
  max 0 (min 1 score)

/-- The `calculateRetention` function of the source: exponential forgetting
curve since the last review, clamped to [0,1]; 0 when there was no review or
the stability is not positive. -/
noncomputable def calculateRetention (lastReviewAt : Option ℝ) (stabilityDays : ℝ)
    (now : ℝ) : ℝ :=
  match lastReviewAt with
  | none => 0
  | some lastReview =>
      if stabilityDays ≤ 0 then 0
      else
        let daysSince := (now - lastReview) / msPerDay
        max 0 (min 1 (Real.exp (-daysSince / stabilityDays)))

/-- Mastery colors returned by `getMasteryColor`. -/
inductive MasteryColor
  | green
  | yellow
  | red
  | gray
deriving DecidableEq

/-- The `getMasteryColor` function of the source. -/
noncomputable def getMasteryColor (pKnow : ℝ) : MasteryColor :=
  if pKnow < 0 then .gray
  else if pKnow ≥ 0.80 then .green
  else if pKnow ≥ 0.50 then .yellow
  else .red

/-- JavaScript rounding to three decimals, `Math.round(x * 1000) / 1000`
(`Math.round` is floor of `x + 1/2`, which is Mathlib's `round`). -/
noncomputable def round3 (x : ℝ) : ℝ := ((round (x * 1000) : ℤ) : ℝ) / 1000

/-- One row of a hierarchy table.  `parent` is the foreign key used by the
scope resolution at that level (`course_id` for semesters, `semester_id` for
sections, `section_id` for topics, `topic_id` for summaries); `deleted` is
whether `deleted_at` is set. -/
structure Row where
  id : String
  parent : String
  deleted : Bool

/-- The hierarchy snapshot the scope resolution reads. -/
structure Db where
  semesters : List Row
  sections : List Row
  topics : List Row
  summaries : List Row

/-- The `get_course_summary_ids` SQL function: the distinct ids of non-deleted
summaries reachable from the course through non-deleted topics, sections and
semesters (single 4-table JOIN). -/
def get_course_summary_ids (db : Db) (courseId : String) : Finset String :=
  ((db.summaries.filter (fun s =>
      !s.deleted &&
      db.topics.any (fun t => s.parent == t.id && !t.deleted &&
        db.sections.any (fun sec => t.parent == sec.id && !sec.deleted &&
          db.semesters.any (fun sem => sec.parent == sem.id && !sem.deleted &&
            sem.parent == courseId))))).map Row.id).toFinset

/-- Which of the resolver's queries fail.  The Supabase client resolves a
failed query to a record whose `data` field is `null`; the fallback code reads
only `data`, so a failure there behaves exactly like a `null` result. -/
structure DbFaults where
  rpcFails : Bool
  semestersFails : Bool
  sectionsFails : Bool
  topicsFails : Bool
  summariesFails : Bool

/-- All queries succeed. -/
def noFaults : DbFaults := ⟨false, false, false, false, false⟩

/-- Only the RPC (batched) query fails, so the sequential fallback runs. -/
def rpcDownFaults : DbFaults := ⟨true, false, false, false, false⟩

/-- Rows of the fallback's first query: non-deleted semesters of the course. -/
def fallbackSemesters (db : Db) (courseId : String) : List Row :=
  db.semesters.filter (fun r => r.parent == courseId && !r.deleted)

/-- Rows of the fallback's second query: non-deleted sections of those semesters. -/
def fallbackSections (db : Db) (courseId : String) : List Row :=
  db.sections.filter (fun r =>
    decide (r.parent ∈ (fallbackSemesters db courseId).map Row.id) && !r.deleted)

/-- Rows of the fallback's third query: non-deleted topics of those sections. -/
def fallbackTopics (db : Db) (courseId : String) : List Row :=
  db.topics.filter (fun r =>
    decide (r.parent ∈ (fallbackSections db courseId).map Row.id) && !r.deleted)

/-- Rows of the fallback's fourth query: non-deleted summaries of those topics. -/
def fallbackSummaries (db : Db) (courseId : String) : List Row :=
  db.summaries.filter (fun r =>
    decide (r.parent ∈ (fallbackTopics db courseId).map Row.id) && !r.deleted)

/-- The `resolveSummaryIdsForCourse` function of the source.  Primary path:
one RPC call to `get_course_summary_ids`, returning `null` (`none`) when it
yields no rows.  Fallback path (when the RPC fails): the sequential tree walk,
which returns `null` as soon as a level's `data` is `null` (failed query) or
empty. -/
def resolveSummaryIdsForCourse (db : Db) (faults : DbFaults) (courseId : String) :
    Option (Finset String) :=
  if !faults.rpcFails then
    let rpcData := get_course_summary_ids db courseId
    if rpcData = ∅ then none else some rpcData
  else
    if faults.semestersFails then none
    else if (fallbackSemesters db courseId).isEmpty then none
    else if faults.sectionsFails then none
    else if (fallbackSections db courseId).isEmpty then none
    else if faults.topicsFails then none
    else if (fallbackTopics db courseId).isEmpty then none
    else if faults.summariesFails then none
    else if (fallbackSummaries db courseId).isEmpty then none
    else some ((fallbackSummaries db courseId).map Row.id).toFinset

/-- One row of `bkt_states` as selected by the handler. -/
structure BktRow where
  subtopic_id : String
  p_know : ℝ
  total_attempts : ℕ

/-- One row of `fsrs_states` as selected by the handler. -/
structure FsrsRow where
  flashcard_id : String
  stability : ℝ
  difficulty : ℝ
  due_at : ℝ
  last_review_at : Option ℝ
  reps : ℕ
  lapses : ℕ
  state : String

/-- One row of `flashcards` as selected by the handler. -/
structure Card where
  id : String
  summary_id : String
  keyword_id : String
  subtopic_id : Option String
  front : String
  back : String
  front_image_url : Option String
  back_image_url : Option String

/-- The `bktMap` built by the handler: index the BKT rows by `subtopic_id`
(later rows overwrite earlier ones, as with `Map.set`). -/
def buildBktMap (rows : List BktRow) : String → Option BktRow :=
  rows.foldl (fun m r => fun k => if k == r.subtopic_id then some r else m k)
    (fun _ => none)

/-- The `fsrsMap` built by the handler: index the FSRS rows by `flashcard_id`
(later rows overwrite earlier ones, as with `Map.set`). -/
def buildFsrsMap (rows : List FsrsRow) : String → Option FsrsRow :=
  rows.foldl (fun m r => fun k => if k == r.flashcard_id then some r else m k)
    (fun _ => none)

/-- One entry of the produced queue (the `QueueItem` interface of the source). -/
structure QueueItem where
  flashcard_id : String
  summary_id : String
  keyword_id : String
  subtopic_id : Option String
  front : String
  back : String
  front_image_url : Option String
  back_image_url : Option String
  need_score : ℝ
  retention : ℝ
  mastery_color : MasteryColor
  p_know : ℝ
  fsrs_state : String
  due_at : Option ℝ
  stability : ℝ
  difficulty : ℝ
  is_new : Bool

/-- One iteration of the handler's per-card loop: `none` when the card is
skipped (scope filter, or scheduled card not yet due with `includeFuture`
off), otherwise the queue entry pushed for it. -/
noncomputable def processCard (allowedSummaryIds : Option (Finset String))
    (includeFuture : Bool) (fsrsMap : String → Option FsrsRow)
    (bktMap : String → Option BktRow) (now : ℝ) (card : Card) :
    Option QueueItem :=
  if (match allowedSummaryIds with
      | some allowed => decide (card.summary_id ∈ allowed)
      | none => true) = false then none
  else
    let fsrs := fsrsMap card.id
    let isNew := fsrs.isNone
    let subtopicId := card.subtopic_id
    let pKnow : ℝ :=
      match subtopicId with
      | some st =>
          match bktMap st with
          | some bkt => bkt.p_know
          | none => 0
      | none => 0
    if (match fsrs with
        | some f => !includeFuture && decide (f.due_at > now)
        | none => false) = true then none
    else
      let needScore := calculateNeedScore
        { dueAt := fsrs.map FsrsRow.due_at
          fsrsLapses := (fsrs.map FsrsRow.lapses).getD 0
          fsrsReps := (fsrs.map FsrsRow.reps).getD 0
          fsrsState := (fsrs.map FsrsRow.state).getD "new"
          fsrsStability := (fsrs.map FsrsRow.stability).getD 1
          pKnow := pKnow } now
      let retention :=
        match fsrs with
        | some f => calculateRetention f.last_review_at f.stability now
        | none => 0
      some
        { flashcard_id := card.id
          summary_id := card.summary_id
          keyword_id := card.keyword_id
          subtopic_id := subtopicId
          front := card.front
          back := card.back
          front_image_url := card.front_image_url
          back_image_url := card.back_image_url
          need_score := round3 needScore
          retention := round3 retention
          mastery_color := getMasteryColor pKnow
          p_know := round3 pKnow
          fsrs_state := (fsrs.map FsrsRow.state).getD "new"
          due_at := fsrs.map FsrsRow.due_at
          stability := (fsrs.map FsrsRow.stability).getD 1
          difficulty := (fsrs.map FsrsRow.difficulty).getD 5
          is_new := isNew }

/-- Accumulated state of the per-card loop: the pushed entries and the
`totalNew` / `totalReview` counters. -/
structure QueueAccum where
  queue : List QueueItem
  totalNew : ℕ
  totalReview : ℕ

/-- One iteration of the handler's accumulation: skip, or push and bump the
matching counter. -/
noncomputable def queueStep (allowedSummaryIds : Option (Finset String))
    (includeFuture : Bool) (fsrsMap : String → Option FsrsRow)
    (bktMap : String → Option BktRow) (now : ℝ) (acc : QueueAccum)
    (card : Card) : QueueAccum :=
  match processCard allowedSummaryIds includeFuture fsrsMap bktMap now card with
  | none => acc
  | some item =>
      { queue := acc.queue ++ [item]
        totalNew := if item.is_new then acc.totalNew + 1 else acc.totalNew
        totalReview := if item.is_new then acc.totalReview else acc.totalReview + 1 }

/-- The handler's per-card loop over all fetched flashcards. -/
noncomputable def buildQueue (allowedSummaryIds : Option (Finset String))
    (includeFuture : Bool) (fsrsMap : String → Option FsrsRow)
    (bktMap : String → Option BktRow) (now : ℝ) (cards : List Card) :
    QueueAccum :=
  cards.foldl (queueStep allowedSummaryIds includeFuture fsrsMap bktMap now)
    { queue := [], totalNew := 0, totalReview := 0 }

/-- The sort comparator of the source: NeedScore descending, then retention
ascending, then reviewed (`is_new = false`) before new, else 0. -/
noncomputable def queueCompare (a b : QueueItem) : ℝ :=
  if b.need_score ≠ a.need_score then b.need_score - a.need_score
  else if a.retention ≠ b.retention then a.retention - b.retention
  else if a.is_new ≠ b.is_new then (if a.is_new then 1 else -1)
  else 0

/-- The `queue.sort(...)` call, modelled as a merge sort under the comparator. -/
noncomputable def sortQueue (queue : List QueueItem) : List QueueItem :=
  queue.mergeSort (fun a b => decide (queueCompare a b ≤ 0))

/-- The meta block of a success response. -/
structure Meta where
  total_due : ℕ
  total_new : ℕ
  total_in_queue : ℕ
  returned : ℕ
  limit : ℕ
  include_future : Bool
  course_id : Option String

/-- Outcome of one request: 400-class validation error, 500-class fetch
error, or a success payload. -/
inductive StudyQueueResponse
  | clientError (msg : String)
  | serverError (msg : String)
  | success (queue : List QueueItem) (meta : Meta)

/-- Hexadecimal digit test of the UUID regular expression (case-insensitive). -/
def isHexChar (ch : Char) : Bool :=
  ch.isDigit || (('a' ≤ ch) && (ch ≤ 'f')) || (('A' ≤ ch) && (ch ≤ 'F'))

/-- Splits a character list at every dash, the way the UUID regular
expression divides its subject into groups. -/
def splitDash : List Char → List (List Char)
  | [] => [[]]
  | ch :: rest =>
      if ch = '-' then [] :: splitDash rest
      else
        match splitDash rest with
        | [] => [[ch]]
        | g :: gs => (ch :: g) :: gs

/-- The `isUuid` guard of `validate.ts`: five dash-separated groups of hex
digits with lengths 8-4-4-4-12. -/
def isUuid (s : String) : Bool :=
  match splitDash s.toList with
  | [g1, g2, g3, g4, g5] =>
      g1.length == 8 && g2.length == 4 && g3.length == 4 && g4.length == 4 &&
      g5.length == 12 && (g1 ++ g2 ++ g3 ++ g4 ++ g5).all isHexChar
  | _ => false

/-- The handler's limit parsing: `parseInt` result (with `none` for NaN),
defaulted to 20 when missing or below 1 and capped at 100. -/
def clampLimit (limitRaw : Option Int) : ℕ :=
  match limitRaw with
  | none => 20
  | some l => if l < 1 then 20 else if l > 100 then 100 else l.toNat

/-- The fsrs_states fetch built by the handler: the query selects the
student's rows and, when include_future is false, carries
`lte("due_at", now)`, so rows due strictly in the future are never returned.
(The query's `order("due_at")` does not affect the map keyed by flashcard_id,
one row per card.) -/
noncomputable def fsrsFetch (includeFuture : Bool) (now : ℝ)
    (rows : List FsrsRow) : List FsrsRow :=
  if includeFuture then rows
  else rows.filter (fun r => decide (r.due_at ≤ now))

/-- The GET /study-queue handler after authentication, as a function of the
parsed query parameters, the fetch results (`Except` models the `error` field
of each Supabase response) and the hierarchy snapshot read by the scope
resolver.  The fsrs rows argument is what the fsrs_states query returned: in
the program that is `fsrsFetch includeFuture now` of the student's table, so
with include_future off the future-due rows are already absent here. -/
noncomputable def studyQueueHandler (courseId : Option String)
    (includeFuture : Bool) (limitRaw : Option Int) (now : ℝ)
    (bktRes : Except String (List BktRow))
    (fsrsRes : Except String (List FsrsRow))
    (cardsRes : Except String (List Card))
    (db : Db) (faults : DbFaults) : StudyQueueResponse :=
  let limit := clampLimit limitRaw
  if (match courseId with
      | some cid => !(isUuid cid)
      | none => false) = true then
    .clientError "course_id must be a valid UUID"
  else
    let allowedSummaryIds : Option (Option (Finset String)) :=
      courseId.map (fun cid => resolveSummaryIdsForCourse db faults cid)
    match bktRes with
    | .error m => .serverError ("Fetch bkt_states failed: " ++ m)
    | .ok bktRows =>
      match fsrsRes with
      | .error m => .serverError ("Fetch fsrs_states failed: " ++ m)
      | .ok fsrsRows =>
        match cardsRes with
        | .error m => .serverError ("Fetch flashcards failed: " ++ m)
        | .ok cards =>
          if (match courseId, allowedSummaryIds with
              | some _, some none => true
              | _, _ => false) = true then
            .success []
              { total_due := 0, total_new := 0, total_in_queue := 0,
                returned := 0, limit := limit, include_future := includeFuture,
                course_id := courseId }
          else
            let acc := buildQueue allowedSummaryIds.join includeFuture
              (buildFsrsMap fsrsRows) (buildBktMap bktRows) now cards
            let limited := (sortQueue acc.queue).take limit
            .success limited
              { total_due := acc.totalReview, total_new := acc.totalNew,
                total_in_queue := acc.queue.length, returned := limited.length,
                limit := limit, include_future := includeFuture,
                course_id := courseId }

/-- Fixed concrete entry used to exercise the comparator. -/
def mkItem (ns ret : ℝ) (isNew : Bool) : QueueItem :=
  ⟨"f1", "s1", "k1", none, "front", "back", none, none, ns, ret, .gray, 0,
    "new", none, 1, 5, isNew⟩

/-- Modelled from the specification's own wording of the composite (for the
refinement half of claim C1): `0.40·overdue + 0.30·(1 − p_know) +
0.20·min(1, lapses / max(1, repetitions + lapses + 1)) + 0.10·novelty`,
clamped to [0,1], with overdue 1 when due_at is absent, 0 when days_overdue
is at most 0, and `1 − e^(−days_overdue / 1)` otherwise. -/
noncomputable def needScoreSpec (input : NeedScoreInput) (now : ℝ) : ℝ :=
  let overdue : ℝ :=
    match input.dueAt with
    | none => 1.0
    | some dueDate =>
        let daysOverdue := (now - dueDate) / msPerDay
        if daysOverdue ≤ 0 then 0 else 1 - Real.exp (-(daysOverdue / 1))
  let masteryDeficit := 1 - input.pKnow
  let fragility :=
    min 1 ((input.fsrsLapses : ℝ) / max 1 ((input.fsrsReps : ℝ) + (input.fsrsLapses : ℝ) + 1))
  let novelty : ℝ := if input.fsrsState = "new" then 1 else 0
  min 1 (max 0 (0.40 * overdue + 0.30 * masteryDeficit + 0.20 * fragility + 0.10 * novelty))

/-- The overdue factor of `calculateNeedScore`, as a function of the day
difference. -/
noncomputable def overdueFactor (daysOverdue : ℝ) : ℝ :=
  if daysOverdue > 0 then 1 - Real.exp (-daysOverdue / NEED_CONFIG.graceDays)
  else 0

/-- The fragility factor of `calculateNeedScore`. -/
noncomputable def fragilityFactor (lapses reps : ℕ) : ℝ :=
  min 1 ((lapses : ℝ) / max 1 ((reps : ℝ) + (lapses : ℝ) + 1))

/-- The novelty factor of `calculateNeedScore`. -/
noncomputable def noveltyFactor (st : String) : ℝ :=
  if st = "new" then 1.0 else 0.0

/-- A summary row is linked to the course through non-deleted topic, section
and semester rows. -/
def summaryChain (db : Db) (courseId : String) (s : Row) : Prop :=
  s.deleted = false ∧
  ∃ t ∈ db.topics, s.parent = t.id ∧ t.deleted = false ∧
  ∃ sec ∈ db.sections, t.parent = sec.id ∧ sec.deleted = false ∧
  ∃ sem ∈ db.semesters, sec.parent = sem.id ∧ sem.deleted = false ∧
    sem.parent = courseId

/-- Hierarchy snapshot with one full chain from a course to one summary. -/
def chainDb : Db :=
  ⟨[⟨"sem-1", "11111111-1111-1111-1111-111111111111", false⟩],
   [⟨"sec-1", "sem-1", false⟩],
   [⟨"top-1", "sec-1", false⟩],
   [⟨"sum-1", "top-1", false⟩]⟩

/-- Fault pattern where the batched RPC fails and the fallback's first
query fails too. -/
def semFailFaults : DbFaults := ⟨true, true, false, false, false⟩

/-- Fault pattern where the batched RPC fails and only the fallback's last
(summaries) query fails, so the three earlier levels run and succeed. -/
def sumFailFaults : DbFaults := ⟨true, false, false, false, true⟩

/-- Scheduling row due at time 1, strictly in the future of now = 0. -/
def futureRow : FsrsRow := ⟨"card-1", 1, 5, 1, none, 0, 0, "review"⟩

/-- Flashcard owned by the scheduling row above. -/
def futureCard : Card := ⟨"card-1", "sum-1", "kw-1", none, "f", "b", none, none⟩

/-- A clamped value is nonnegative. -/
lemma clamp_nonneg (x : ℝ) : 0 ≤ max 0 (min 1 x) := le_max_left 0 _

/-- A clamped value is at most one. -/
lemma clamp_le_one (x : ℝ) : max 0 (min 1 x) ≤ 1 :=
  max_le (by norm_num) (min_le_left 1 _)

/-- Clamping is monotone. -/
lemma clamp_mono {x y : ℝ} (h : x ≤ y) : max 0 (min 1 x) ≤ max 0 (min 1 y) :=
  max_le_max le_rfl (min_le_min le_rfl h)

/-- The two clamp orders agree. -/
lemma clamp_comm (x : ℝ) : max 0 (min 1 x) = min 1 (max 0 x) := by
  rcases le_total x 0 with h | h
  · rw [min_eq_right (h.trans zero_le_one), max_eq_left h, min_eq_right zero_le_one]
  · rw [max_eq_right h, max_eq_right (le_min zero_le_one h)]

/-- C3: for every input (any timestamps, counters, state and mastery value,
hence in particular all valid ones), `calculateNeedScore` and
`calculateRetention` return values in [0,1]; in this real-number model no NaN
exists, and the final clamp makes the bound unconditional. -/
theorem needScore_and_retention_bounded :
    ∀ (input : NeedScoreInput) (now : ℝ) (lastReviewAt : Option ℝ)
      (stabilityDays : ℝ),
      0 ≤ calculateNeedScore input now ∧ calculateNeedScore input now ≤ 1 ∧
      0 ≤ calculateRetention lastReviewAt stabilityDays now ∧
      calculateRetention lastReviewAt stabilityDays now ≤ 1 := by
  intro input now lastReviewAt stabilityDays
  refine ⟨?_, ?_, ?_, ?_⟩
  · unfold calculateNeedScore
    exact clamp_nonneg _
  · unfold calculateNeedScore
    exact clamp_le_one _
  · unfold calculateRetention
    cases lastReviewAt with
    | none => exact le_refl 0
    | some lastReview =>
        split_ifs with h
        · exact le_refl 0
        · exact clamp_nonneg _
  · unfold calculateRetention
    cases lastReviewAt with
    | none => exact zero_le_one
    | some lastReview =>
        split_ifs with h
        · exact zero_le_one
        · exact clamp_le_one _

/-- C4: the comparator orders by need_score descending, then retention
ascending, then reviewed entries before new ones, and returns 0 on a full
tie. -/
theorem queueCompare_induces_order :
    ∀ a b : QueueItem,
      (b.need_score < a.need_score → queueCompare a b < 0) ∧
      (a.need_score = b.need_score → a.retention < b.retention →
        queueCompare a b < 0) ∧
      (a.need_score = b.need_score → a.retention = b.retention →
        a.is_new = false → b.is_new = true → queueCompare a b < 0) ∧
      (a.need_score = b.need_score → a.retention = b.retention →
        a.is_new = b.is_new → queueCompare a b = 0) := by
  intro a b
  refine ⟨?_, ?_, ?_, ?_⟩ <;> unfold queueCompare
  · intro h
    rw [if_pos (ne_of_lt h)]
    linarith
  · intro hns hr
    rw [if_neg (not_ne_iff.2 hns.symm), if_pos (ne_of_lt hr)]
    linarith
  · intro hns hr hna hnb
    rw [if_neg (not_ne_iff.2 hns.symm), if_neg (not_ne_iff.2 hr),
      if_pos (by rw [hna, hnb]; exact Bool.false_ne_true), if_neg (by rw [hna]; exact Bool.false_ne_true ∘ Eq.symm ∘ Eq.symm)]
    · norm_num
  · intro hns hr hn
    rw [if_neg (not_ne_iff.2 hns.symm), if_neg (not_ne_iff.2 hr),
      if_neg (not_ne_iff.2 hn)]

/-- Witness for C4 at concrete entries. -/
theorem queueCompare_induces_order_witness :
    queueCompare (mkItem 0.9 0.5 false) (mkItem 0.5 0.5 false) < 0 ∧
    queueCompare (mkItem 0.5 0.2 false) (mkItem 0.5 0.4 false) < 0 ∧
    queueCompare (mkItem 0.5 0.2 false) (mkItem 0.5 0.2 true) < 0 ∧
    queueCompare (mkItem 0.5 0.2 true) (mkItem 0.5 0.2 true) = 0 :=
  ⟨(queueCompare_induces_order _ _).1 (by norm_num [mkItem]),
   (queueCompare_induces_order _ _).2.1 rfl (by norm_num [mkItem]),
   (queueCompare_induces_order _ _).2.2.1 rfl rfl rfl rfl,
   (queueCompare_induces_order _ _).2.2.2 rfl rfl rfl⟩

/-- Factored reading of `calculateNeedScore`. -/
lemma calculateNeedScore_eq (input : NeedScoreInput) (now : ℝ) :
    calculateNeedScore input now =
      max 0 (min 1 (0.40 * (match input.dueAt with
          | none => (1.0 : ℝ)
          | some dueDate => overdueFactor ((now - dueDate) / msPerDay))
        + 0.30 * (1 - input.pKnow)
        + 0.20 * fragilityFactor input.fsrsLapses input.fsrsReps
        + 0.10 * noveltyFactor input.fsrsState)) := by
  rcases input with ⟨d, l, r, st, stab, p⟩
  cases d <;> rfl

/-- The spec's wording of the overdue factor agrees with the code's. -/
lemma overdue_spec_eq (dd : ℝ) :
    (if dd ≤ 0 then (0 : ℝ) else 1 - Real.exp (-(dd / 1))) = overdueFactor dd := by
  unfold overdueFactor
  rcases lt_or_le 0 dd with h | h
  · rw [if_neg (not_le.2 h), if_pos h,
      show NEED_CONFIG.graceDays = (1 : ℝ) from rfl, div_one, div_one]
  · rw [if_pos h, if_neg (not_lt.2 h)]

/-- The spec's wording of the novelty factor agrees with the code's. -/
lemma novelty_spec_eq (st : String) :
    (if st = "new" then (1 : ℝ) else 0) = noveltyFactor st := by
  unfold noveltyFactor
  split_ifs <;> norm_num

/-- Factored reading of `needScoreSpec`. -/
lemma needScoreSpec_eq (input : NeedScoreInput) (now : ℝ) :
    needScoreSpec input now =
      max 0 (min 1 (0.40 * (match input.dueAt with
          | none => (1.0 : ℝ)
          | some dueDate => overdueFactor ((now - dueDate) / msPerDay))
        + 0.30 * (1 - input.pKnow)
        + 0.20 * fragilityFactor input.fsrsLapses input.fsrsReps
        + 0.10 * noveltyFactor input.fsrsState)) := by
  rcases input with ⟨d, l, r, st, stab, p⟩
  unfold needScoreSpec fragilityFactor
  rw [← clamp_comm]
  cases d with
  | none =>
      dsimp only
      rw [novelty_spec_eq]
  | some dueDate =>
      dsimp only
      rw [novelty_spec_eq, overdue_spec_eq]

/-- Crude numeric bounds on `e^(−2)` from the Mathlib decimal bounds on `e`. -/
lemma exp_neg_two_bounds :
    (0.135 : ℝ) < Real.exp (-2 : ℝ) ∧ Real.exp (-2 : ℝ) < 0.1354 := by
  have he1 := Real.exp_one_gt_d9
  have he2 := Real.exp_one_lt_d9
  have hpos : (0 : ℝ) < Real.exp 1 := Real.exp_pos 1
  have hexp2 : Real.exp (-2 : ℝ) = (Real.exp 1 * Real.exp 1)⁻¹ := by
    rw [show (-2 : ℝ) = -(1 + 1) by norm_num, Real.exp_neg, Real.exp_add]
  have hsqpos : (0 : ℝ) < Real.exp 1 * Real.exp 1 := mul_pos hpos hpos
  constructor
  · rw [hexp2]
    have hub : Real.exp 1 * Real.exp 1 < 7.398 := by nlinarith
    have h1 : (7.398 : ℝ)⁻¹ < (Real.exp 1 * Real.exp 1)⁻¹ :=
      inv_strictAnti₀ hsqpos hub
    have h2 : (0.135 : ℝ) < (7.398 : ℝ)⁻¹ := by norm_num
    linarith
  · rw [hexp2]
    have hlb : (7.389 : ℝ) < Real.exp 1 * Real.exp 1 := by nlinarith
    have h1 : (Real.exp 1 * Real.exp 1)⁻¹ < (7.389 : ℝ)⁻¹ :=
      inv_strictAnti₀ (by norm_num) hlb
    have h2 : (7.389 : ℝ)⁻¹ < 0.1354 := by norm_num
    linarith

/-- C1: `calculateNeedScore` computes exactly the specified composite (stated
against `needScoreSpec`, written from the spec's words), and on the concrete
scenario — due 2 days ago, 1 lapse, 4 repetitions, p_know 0.6, non-new state
— the score rounds to 0.499 at three decimals. -/
theorem needScore_matches_spec_formula :
    (∀ (input : NeedScoreInput) (now : ℝ),
        calculateNeedScore input now = needScoreSpec input now) ∧
    (∀ (now stab : ℝ) (st : String), st ≠ "new" →
        round3 (calculateNeedScore
          { dueAt := some (now - 2 * msPerDay), fsrsLapses := 1, fsrsReps := 4,
            fsrsState := st, fsrsStability := stab, pKnow := 0.6 } now) = 0.499) := by
  constructor
  · intro input now
    rw [calculateNeedScore_eq, needScoreSpec_eq]
  · intro now stab st hst
    have hms : msPerDay ≠ 0 := by unfold msPerDay; norm_num
    have hd : (now - (now - 2 * msPerDay)) / msPerDay = 2 := by
      rw [show now - (now - 2 * msPerDay) = 2 * msPerDay by ring,
        mul_div_assoc, div_self hms, mul_one]
    have ho : overdueFactor 2 = 1 - Real.exp (-2 : ℝ) := by
      unfold overdueFactor
      rw [if_pos (by norm_num : (2 : ℝ) > 0)]
      norm_num [NEED_CONFIG]
    have hf : fragilityFactor 1 4 = 1 / 6 := by
      unfold fragilityFactor
      norm_num
    have hn : noveltyFactor st = 0 := by
      unfold noveltyFactor
      rw [if_neg hst]
      norm_num
    have key : calculateNeedScore
        { dueAt := some (now - 2 * msPerDay), fsrsLapses := 1, fsrsReps := 4,
          fsrsState := st, fsrsStability := stab, pKnow := 0.6 } now
        = max 0 (min 1 (0.40 * (1 - Real.exp (-2 : ℝ)) + 0.30 * (1 - 0.6) +
            0.20 * (1 / 6) + 0.10 * 0)) := by
      rw [calculateNeedScore_eq]
      dsimp only
      rw [hd, ho, hf, hn]
    rw [key]
    obtain ⟨hlo, hhi⟩ := exp_neg_two_bounds
    have hs1 : (0.499 : ℝ) < 0.40 * (1 - Real.exp (-2 : ℝ)) + 0.30 * (1 - 0.6) +
        0.20 * (1 / 6) + 0.10 * 0 := by nlinarith
    have hs2 : 0.40 * (1 - Real.exp (-2 : ℝ)) + 0.30 * (1 - 0.6) +
        0.20 * (1 / 6) + 0.10 * 0 < 0.4994 := by nlinarith
    rw [min_eq_right (by linarith), max_eq_right (by linarith)]
    unfold round3
    have hround : round ((0.40 * (1 - Real.exp (-2 : ℝ)) + 0.30 * (1 - 0.6) +
        0.20 * (1 / 6) + 0.10 * 0) * 1000) = (499 : ℤ) := by
      rw [round_eq]
      refine Int.floor_eq_iff.2 ⟨?_, ?_⟩
      · push_cast
        nlinarith
      · push_cast
        nlinarith
    rw [hround]
    norm_num

/-- Witness for C1 at the concrete non-new state "review" and now = 0. -/
theorem needScore_matches_spec_formula_witness :
    ("review" : String) ≠ "new" ∧
    round3 (calculateNeedScore
      { dueAt := some ((0 : ℝ) - 2 * msPerDay), fsrsLapses := 1, fsrsReps := 4,
        fsrsState := "review", fsrsStability := 1, pKnow := 0.6 } 0) = 0.499 :=
  ⟨by decide, needScore_matches_spec_formula.2 0 1 "review" (by decide)⟩

/-- The overdue factor is monotone in the day difference. -/
lemma overdueFactor_mono {a b : ℝ} (h : a ≤ b) :
    overdueFactor a ≤ overdueFactor b := by
  unfold overdueFactor
  rw [show NEED_CONFIG.graceDays = (1 : ℝ) from rfl, div_one, div_one]
  rcases lt_or_le 0 a with ha | ha
  · rw [if_pos ha, if_pos (lt_of_lt_of_le ha h)]
    have hexp := Real.exp_le_exp.2 (neg_le_neg h)
    linarith
  · rw [if_neg (not_lt.2 ha)]
    rcases lt_or_le 0 b with hb | hb
    · rw [if_pos hb]
      have hexp : Real.exp (-b) ≤ 1 := Real.exp_le_one_iff.2 (by linarith)
      linarith
    · rw [if_neg (not_lt.2 hb)]

/-- C5: with all other inputs fixed, the score does not decrease when the due
time moves earlier (more days overdue), and does not decrease when p_know
decreases. -/
theorem needScore_monotone :
    ∀ (lapses reps : ℕ) (st : String) (stab now : ℝ),
      (∀ (p dueTs dueTs2 : ℝ), dueTs2 ≤ dueTs →
        calculateNeedScore ⟨some dueTs, lapses, reps, st, stab, p⟩ now ≤
        calculateNeedScore ⟨some dueTs2, lapses, reps, st, stab, p⟩ now) ∧
      (∀ (dA : Option ℝ) (p p2 : ℝ), p2 ≤ p →
        calculateNeedScore ⟨dA, lapses, reps, st, stab, p⟩ now ≤
        calculateNeedScore ⟨dA, lapses, reps, st, stab, p2⟩ now) := by
  intro lapses reps st stab now
  constructor
  · intro p dueTs dueTs2 h
    rw [calculateNeedScore_eq, calculateNeedScore_eq]
    dsimp only
    apply clamp_mono
    have hms : (0 : ℝ) < msPerDay := by unfold msPerDay; norm_num
    have hov : overdueFactor ((now - dueTs) / msPerDay) ≤
        overdueFactor ((now - dueTs2) / msPerDay) :=
      overdueFactor_mono ((div_le_div_iff_of_pos_right hms).2 (sub_le_sub_left h now))
    linarith
  · intro dA p p2 h
    rw [calculateNeedScore_eq, calculateNeedScore_eq]
    apply clamp_mono
    linarith

/-- Witness for C5: moving the due time a day earlier, and lowering p_know,
both at concrete inputs. -/
theorem needScore_monotone_witness :
    (calculateNeedScore ⟨some 86400000, 0, 0, "review", 1, 0.5⟩ 0 ≤
      calculateNeedScore ⟨some (-86400000 : ℝ), 0, 0, "review", 1, 0.5⟩ 0) ∧
    (calculateNeedScore ⟨none, 0, 0, "review", 1, 0.5⟩ 0 ≤
      calculateNeedScore ⟨none, 0, 0, "review", 1, 0.25⟩ 0) :=
  ⟨(needScore_monotone 0 0 "review" 1 0).1 0.5 86400000 (-86400000) (by norm_num),
   (needScore_monotone 0 0 "review" 1 0).2 none 0.5 0.25 (by norm_num)⟩

/-- A brand-new card (no scheduling row, no mastery row) scores exactly 0.80:
overdue 1, mastery deficit 1, fragility 0, novelty 1 under weights
0.40/0.30/0.20/0.10. -/
lemma processCard_brandNew_score (card : Card) (now : ℝ) (includeFuture : Bool) :
    Option.map QueueItem.need_score
      (processCard none includeFuture (buildFsrsMap []) (buildBktMap []) now card)
      = some 0.8 := by
  have hcalc : ∀ p : ℝ, p = 0 →
      calculateNeedScore ⟨none, 0, 0, "new", 1, p⟩ now = 0.8 := by
    intro p hp
    rw [calculateNeedScore_eq]
    dsimp only
    rw [hp, show fragilityFactor 0 0 = 0 from by unfold fragilityFactor; norm_num,
      show noveltyFactor "new" = 1.0 from by unfold noveltyFactor; rw [if_pos rfl]]
    norm_num
  have hr : round3 (0.8 : ℝ) = 0.8 := by
    unfold round3
    rw [show (0.8 : ℝ) * 1000 = ((800 : ℤ) : ℝ) by norm_num, round_intCast]
    norm_num
  rcases card with ⟨cid, sid, kid, sub, f, b, fi, bi⟩
  cases sub with
  | none =>
      show some (round3 (calculateNeedScore ⟨none, 0, 0, "new", 1, 0⟩ now)) = some 0.8
      rw [hcalc 0 rfl, hr]
  | some st =>
      show some (round3 (calculateNeedScore ⟨none, 0, 0, "new", 1, 0⟩ now)) = some 0.8
      rw [hcalc 0 rfl, hr]

/-- C2 counterexample: on a brand-new item with no mastery data the engine
produces need_score 0.8, which is not the 0.70 the claim states. -/
theorem brandNew_needScore_counterexample :
    Option.map QueueItem.need_score
      (processCard none false (buildFsrsMap []) (buildBktMap []) 0
        ⟨"card-1", "sum-1", "kw-1", none, "front", "back", none, none⟩)
      = some 0.8 ∧ (0.8 : ℝ) ≠ 0.70 :=
  ⟨processCard_brandNew_score _ 0 false, by norm_num⟩

/-- C2 amended: for a brand-new item (no scheduling row, mastery absent) the
engine produces need_score 0.80 exactly (0.40 + 0.30 + 0 + 0.10). -/
theorem brandNew_needScore_eq_080 :
    ∀ (card : Card) (now : ℝ) (includeFuture : Bool),
      Option.map QueueItem.need_score
        (processCard none includeFuture (buildFsrsMap []) (buildBktMap []) now card)
        = some 0.8 :=
  fun card now includeFuture => processCard_brandNew_score card now includeFuture

/-- Membership in the batched JOIN result. -/
lemma mem_get_course_summary_ids {db : Db} {courseId x : String} :
    x ∈ get_course_summary_ids db courseId ↔
      ∃ s ∈ db.summaries, s.id = x ∧ summaryChain db courseId s := by
  unfold get_course_summary_ids summaryChain
  rw [List.mem_toFinset]
  simp only [List.mem_map, List.mem_filter, List.any_eq_true, Bool.and_eq_true,
    beq_iff_eq, Bool.not_eq_true']
  constructor
  · rintro ⟨s, ⟨hs, hdel, t, ht, ⟨ht1, ht2⟩, sec, hsec, ⟨hc1, hc2⟩, sem, hsem,
      ⟨he1, he2⟩, he3⟩, hid⟩
    exact ⟨s, hs, hid, hdel, t, ht, ht1, ht2, sec, hsec, hc1, hc2, sem, hsem,
      he1, he2, he3⟩
  · rintro ⟨s, hs, hid, hdel, t, ht, ht1, ht2, sec, hsec, hc1, hc2, sem, hsem,
      he1, he2, he3⟩
    exact ⟨s, ⟨hs, hdel, t, ht, ⟨ht1, ht2⟩, sec, hsec, ⟨hc1, hc2⟩, sem, hsem,
      ⟨he1, he2⟩, he3⟩, hid⟩

/-- Membership in the fallback's semesters level. -/
lemma mem_fallbackSemesters {db : Db} {courseId : String} {r : Row} :
    r ∈ fallbackSemesters db courseId ↔
      r ∈ db.semesters ∧ r.parent = courseId ∧ r.deleted = false := by
  unfold fallbackSemesters
  rw [List.mem_filter]
  simp only [Bool.and_eq_true, beq_iff_eq, Bool.not_eq_true', and_assoc]

/-- Membership in the fallback's sections level. -/
lemma mem_fallbackSections {db : Db} {courseId : String} {r : Row} :
    r ∈ fallbackSections db courseId ↔
      r ∈ db.sections ∧
        (∃ sem ∈ fallbackSemesters db courseId, sem.id = r.parent) ∧
        r.deleted = false := by
  unfold fallbackSections
  rw [List.mem_filter]
  simp only [Bool.and_eq_true, decide_eq_true_eq, List.mem_map,
    Bool.not_eq_true', and_assoc]

/-- Membership in the fallback's topics level. -/
lemma mem_fallbackTopics {db : Db} {courseId : String} {r : Row} :
    r ∈ fallbackTopics db courseId ↔
      r ∈ db.topics ∧
        (∃ sec ∈ fallbackSections db courseId, sec.id = r.parent) ∧
        r.deleted = false := by
  unfold fallbackTopics
  rw [List.mem_filter]
  simp only [Bool.and_eq_true, decide_eq_true_eq, List.mem_map,
    Bool.not_eq_true', and_assoc]

/-- Membership in the fallback's summaries level. -/
lemma mem_fallbackSummaries {db : Db} {courseId : String} {r : Row} :
    r ∈ fallbackSummaries db courseId ↔
      r ∈ db.summaries ∧
        (∃ t ∈ fallbackTopics db courseId, t.id = r.parent) ∧
        r.deleted = false := by
  unfold fallbackSummaries
  rw [List.mem_filter]
  simp only [Bool.and_eq_true, decide_eq_true_eq, List.mem_map,
    Bool.not_eq_true', and_assoc]

/-- The fallback's final level selects exactly the rows with a full chain. -/
lemma mem_fallbackSummaries_iff_chain {db : Db} {courseId : String} {s : Row} :
    s ∈ fallbackSummaries db courseId ↔
      s ∈ db.summaries ∧ summaryChain db courseId s := by
  rw [mem_fallbackSummaries]
  unfold summaryChain
  constructor
  · rintro ⟨hs, ⟨t, ht, htid⟩, hdel⟩
    obtain ⟨htm, ⟨sec, hsec, hsecid⟩, htdel⟩ := mem_fallbackTopics.1 ht
    obtain ⟨hsecm, ⟨sem, hsem, hsemid⟩, hsecdel⟩ := mem_fallbackSections.1 hsec
    obtain ⟨hsemm, hsemc, hsemdel⟩ := mem_fallbackSemesters.1 hsem
    exact ⟨hs, hdel, t, htm, htid.symm, htdel, sec, hsecm, hsecid.symm, hsecdel,
      sem, hsemm, hsemid.symm, hsemdel, hsemc⟩
  · rintro ⟨hs, hdel, t, htm, htid, htdel, sec, hsecm, hsecid, hsecdel,
      sem, hsemm, hsemid, hsemdel, hsemc⟩
    refine ⟨hs, ⟨t, ?_, htid.symm⟩, hdel⟩
    refine mem_fallbackTopics.2 ⟨htm, ⟨sec, ?_, hsecid.symm⟩, htdel⟩
    refine mem_fallbackSections.2 ⟨hsecm, ⟨sem, ?_, hsemid.symm⟩, hsecdel⟩
    exact mem_fallbackSemesters.2 ⟨hsemm, hsemc, hsemdel⟩

/-- The ids produced by the fallback walk are exactly the batched JOIN's. -/
lemma fallback_mem_iff_batched {db : Db} {courseId x : String} :
    x ∈ (fallbackSummaries db courseId).map Row.id ↔
      x ∈ get_course_summary_ids db courseId := by
  rw [List.mem_map, mem_get_course_summary_ids]
  constructor
  · rintro ⟨s, hs, hx⟩
    obtain ⟨hsm, hchain⟩ := mem_fallbackSummaries_iff_chain.1 hs
    exact ⟨s, hsm, hx, hchain⟩
  · rintro ⟨s, hsm, hx, hchain⟩
    exact ⟨s, mem_fallbackSummaries_iff_chain.2 ⟨hsm, hchain⟩, hx⟩

/-- A list with a member is not `isEmpty`. -/
lemma isEmpty_false_of_mem {α : Type} {l : List α} {a : α} (h : a ∈ l) :
    l.isEmpty = false := by
  cases l
  · cases h
  · rfl

/-- The sequential fallback walk produces the batched JOIN's result, under
the same null-on-empty convention. -/
lemma fallback_walk_eq_batched (db : Db) (courseId : String) :
    resolveSummaryIdsForCourse db rpcDownFaults courseId =
      (if get_course_summary_ids db courseId = ∅ then none
       else some (get_course_summary_ids db courseId)) := by
  unfold resolveSummaryIdsForCourse
  norm_num [rpcDownFaults]
  by_cases hB : get_course_summary_ids db courseId = ∅
  · rw [if_pos hB]
    split_ifs with h1 h2 h3 h4
    · rfl
    · rfl
    · rfl
    · rfl
    · exfalso
      have hne : fallbackSummaries db courseId ≠ [] := by
        intro hnil
        rw [hnil] at h4
        exact h4 rfl
      obtain ⟨s, hs⟩ := List.exists_mem_of_ne_nil _ hne
      have hmem : s.id ∈ get_course_summary_ids db courseId :=
        fallback_mem_iff_batched.1 (List.mem_map_of_mem Row.id hs)
      rw [hB] at hmem
      exact absurd hmem (Finset.not_mem_empty _)
  · rw [if_neg hB]
    obtain ⟨x, hx⟩ := Finset.nonempty_iff_ne_empty.2 hB
    obtain ⟨s, hsm, hsid, hchain⟩ := mem_get_course_summary_ids.1 hx
    obtain ⟨hdel, t, htm, hpt, htdel, sec, hsecm, hpsec, hsecdel,
      sem, hsemm, hpsem, hsemdel, hsemc⟩ := hchain
    have hsemf : sem ∈ fallbackSemesters db courseId :=
      mem_fallbackSemesters.2 ⟨hsemm, hsemc, hsemdel⟩
    have hsecf : sec ∈ fallbackSections db courseId :=
      mem_fallbackSections.2 ⟨hsecm, ⟨sem, hsemf, hpsem.symm⟩, hsecdel⟩
    have htf : t ∈ fallbackTopics db courseId :=
      mem_fallbackTopics.2 ⟨htm, ⟨sec, hsecf, hpsec.symm⟩, htdel⟩
    have hsf : s ∈ fallbackSummaries db courseId :=
      mem_fallbackSummaries.2 ⟨hsm, ⟨t, htf, hpt.symm⟩, hdel⟩
    split_ifs with h1 h2 h3 h4
    · rw [isEmpty_false_of_mem hsemf] at h1
      exact absurd h1 (by norm_num)
    · rw [isEmpty_false_of_mem hsecf] at h2
      exact absurd h2 (by norm_num)
    · rw [isEmpty_false_of_mem htf] at h3
      exact absurd h3 (by norm_num)
    · rw [isEmpty_false_of_mem hsf] at h4
      exact absurd h4 (by norm_num)
    · congr 1
      ext y
      rw [List.mem_toFinset]
      exact fallback_mem_iff_batched

/-- The primary (batched RPC) path of the resolver. -/
lemma primary_path_eq (db : Db) (courseId : String) :
    resolveSummaryIdsForCourse db noFaults courseId =
      (if get_course_summary_ids db courseId = ∅ then none
       else some (get_course_summary_ids db courseId)) := by
  unfold resolveSummaryIdsForCourse
  norm_num [noFaults]

/-- C6: on the same hierarchy snapshot, the batched JOIN path and the
sequential fallback walk resolve every course to the same result — both null
(no matching summaries) or both the same id set. -/
theorem scope_resolution_paths_agree :
    ∀ (db : Db) (courseId : String),
      resolveSummaryIdsForCourse db noFaults courseId =
        resolveSummaryIdsForCourse db rpcDownFaults courseId := by
  intro db courseId
  rw [primary_path_eq, fallback_walk_eq_batched]

/-- With a course id whose scope resolution returns null, the handler
answers with the zeroed success response without scoring anything. -/
lemma handler_empty_scope_aux (cid : String) (includeFuture : Bool)
    (limitRaw : Option Int) (now : ℝ) (bktRows : List BktRow)
    (fsrsRows : List FsrsRow) (cards : List Card) (db : Db) (faults : DbFaults)
    (huuid : isUuid cid = true)
    (hres : resolveSummaryIdsForCourse db faults cid = none) :
    studyQueueHandler (some cid) includeFuture limitRaw now
        (.ok bktRows) (.ok fsrsRows) (.ok cards) db faults =
      .success []
        { total_due := 0, total_new := 0, total_in_queue := 0, returned := 0,
          limit := clampLimit limitRaw, include_future := includeFuture,
          course_id := some cid } := by
  unfold studyQueueHandler
  dsimp only [Option.map_some']
  rw [huuid, hres]
  norm_num

/-- C7: a given scope id that resolves to zero matching leaf ids yields a
success response with an empty queue and all counters zero. -/
theorem emptyScope_returns_zeroed_success :
    ∀ (cid : String) (includeFuture : Bool) (limitRaw : Option Int) (now : ℝ)
      (bktRows : List BktRow) (fsrsRows : List FsrsRow) (cards : List Card)
      (db : Db) (faults : DbFaults),
      isUuid cid = true →
      resolveSummaryIdsForCourse db faults cid = none →
      studyQueueHandler (some cid) includeFuture limitRaw now
          (.ok bktRows) (.ok fsrsRows) (.ok cards) db faults =
        .success []
          { total_due := 0, total_new := 0, total_in_queue := 0, returned := 0,
            limit := clampLimit limitRaw, include_future := includeFuture,
            course_id := some cid } :=
  fun cid includeFuture limitRaw now bktRows fsrsRows cards db faults h1 h2 =>
    handler_empty_scope_aux cid includeFuture limitRaw now bktRows fsrsRows
      cards db faults h1 h2

/-- Witness for C7: an empty snapshot resolves any course to null and the
handler short-circuits. -/
theorem emptyScope_returns_zeroed_success_witness :
    studyQueueHandler (some "11111111-1111-1111-1111-111111111111") false none 0
        (.ok []) (.ok []) (.ok []) ⟨[], [], [], []⟩ noFaults =
      .success []
        { total_due := 0, total_new := 0, total_in_queue := 0, returned := 0,
          limit := 20, include_future := false,
          course_id := some "11111111-1111-1111-1111-111111111111" } :=
  emptyScope_returns_zeroed_success "11111111-1111-1111-1111-111111111111"
    false none 0 [] [] [] ⟨[], [], [], []⟩ noFaults (by decide) (by decide)

/-- C8 counterexample: on a snapshot whose course genuinely contains one
summary, a failing fallback query makes the request return a zero-counter
success response — no error is surfaced. -/
theorem fallbackFailure_counterexample :
    resolveSummaryIdsForCourse chainDb noFaults
        "11111111-1111-1111-1111-111111111111" = some {"sum-1"} ∧
    studyQueueHandler (some "11111111-1111-1111-1111-111111111111") false none 0
        (.ok []) (.ok []) (.ok []) chainDb semFailFaults =
      .success []
        { total_due := 0, total_new := 0, total_in_queue := 0, returned := 0,
          limit := 20, include_future := false,
          course_id := some "11111111-1111-1111-1111-111111111111" } :=
  ⟨by decide,
   handler_empty_scope_aux "11111111-1111-1111-1111-111111111111" false none 0
     [] [] [] chainDb semFailFaults (by decide) (by decide)⟩

/-- With the RPC down, a failure of any of the four fallback queries makes
the resolver return null: the failed query's null data is read exactly like
an empty level, and reaching the final id set requires all four queries to
have succeeded. -/
lemma resolver_none_of_fallback_fault (db : Db) (faults : DbFaults)
    (cid : String) (hrpc : faults.rpcFails = true)
    (hfault : faults.semestersFails = true ∨ faults.sectionsFails = true ∨
      faults.topicsFails = true ∨ faults.summariesFails = true) :
    resolveSummaryIdsForCourse db faults cid = none := by
  unfold resolveSummaryIdsForCourse
  rw [hrpc]
  norm_num
  rcases hfault with h | h | h | h <;> rw [h] <;> norm_num

/-- C8 amended: when the batched query fails and one of the sequential
fallback queries itself also fails, `resolveSummaryIdsForCourse` treats the
failure like an empty result (null), so the request returns the zero-counter
empty-queue success response instead of surfacing an error. -/
theorem fallbackFailure_returns_empty_success :
    ∀ (cid : String) (includeFuture : Bool) (limitRaw : Option Int) (now : ℝ)
      (bktRows : List BktRow) (fsrsRows : List FsrsRow) (cards : List Card)
      (db : Db) (faults : DbFaults),
      isUuid cid = true →
      faults.rpcFails = true →
      (faults.semestersFails = true ∨ faults.sectionsFails = true ∨
        faults.topicsFails = true ∨ faults.summariesFails = true) →
      studyQueueHandler (some cid) includeFuture limitRaw now
          (.ok bktRows) (.ok fsrsRows) (.ok cards) db faults =
        .success []
          { total_due := 0, total_new := 0, total_in_queue := 0, returned := 0,
            limit := clampLimit limitRaw, include_future := includeFuture,
            course_id := some cid } := by
  intro cid includeFuture limitRaw now bktRows fsrsRows cards db faults
    huuid hrpc hfault
  exact handler_empty_scope_aux cid includeFuture limitRaw now bktRows fsrsRows
    cards db faults huuid (resolver_none_of_fallback_fault db faults cid hrpc hfault)

/-- Witness for C8's amended statement: once with the first fallback query
failing, and once with only the last (summaries) query failing on a snapshot
where the three earlier levels run and return rows. -/
theorem fallbackFailure_returns_empty_success_witness :
    (studyQueueHandler (some "11111111-1111-1111-1111-111111111111") true none 0
        (.ok []) (.ok []) (.ok []) chainDb semFailFaults =
      .success []
        { total_due := 0, total_new := 0, total_in_queue := 0, returned := 0,
          limit := 20, include_future := true,
          course_id := some "11111111-1111-1111-1111-111111111111" }) ∧
    (studyQueueHandler (some "11111111-1111-1111-1111-111111111111") false none 0
        (.ok []) (.ok []) (.ok []) chainDb sumFailFaults =
      .success []
        { total_due := 0, total_new := 0, total_in_queue := 0, returned := 0,
          limit := 20, include_future := false,
          course_id := some "11111111-1111-1111-1111-111111111111" }) :=
  ⟨fallbackFailure_returns_empty_success "11111111-1111-1111-1111-111111111111"
    true none 0 [] [] [] chainDb semFailFaults (by decide) (by decide) (by decide),
   fallbackFailure_returns_empty_success "11111111-1111-1111-1111-111111111111"
    false none 0 [] [] [] chainDb sumFailFaults (by decide) (by decide) (by decide)⟩

/-- C9 is false of the program: with include_future off, the fsrs_states
fetch itself drops the future-due row (`lte("due_at", now)`), so the card
reaches the loop with no map entry, the in-loop due check cannot fire, and
the card enters the queue marked new (with the full brand-new score boost)
instead of being excluded.  Evaluated end to end at a concrete request. -/
theorem futureDue_card_included_as_new :
    fsrsFetch false 0 [futureRow] = [] ∧
    ∃ (item : QueueItem) (meta : Meta),
      studyQueueHandler none false none 0 (.ok [])
          (.ok (fsrsFetch false 0 [futureRow])) (.ok [futureCard])
          ⟨[], [], [], []⟩ noFaults = .success [item] meta ∧
      item.is_new = true ∧ item.need_score = 0.8 ∧
      meta.total_new = 1 ∧ meta.total_due = 0 ∧ meta.total_in_queue = 1 := by
  have hfetch : fsrsFetch false 0 [futureRow] = [] := by
    unfold fsrsFetch
    rw [if_neg (by norm_num : ¬(false = true))]
    have hpred : decide ((futureRow.due_at : ℝ) ≤ (0 : ℝ)) = false :=
      decide_eq_false (by norm_num [futureRow])
    simp [hpred]
  refine ⟨hfetch, ?_⟩
  rw [hfetch]
  have hproc : ∃ item, processCard none false (buildFsrsMap [])
      (buildBktMap []) 0 futureCard = some item ∧ item.is_new = true :=
    ⟨_, rfl, rfl⟩
  obtain ⟨item, hitem, hnew⟩ := hproc
  have hscore : item.need_score = 0.8 := by
    have hh := processCard_brandNew_score futureCard 0 false
    rw [hitem] at hh
    exact Option.some_inj.1 hh
  have hacc : buildQueue none false (buildFsrsMap []) (buildBktMap []) 0
      [futureCard] = ⟨[item], 1, 0⟩ := by
    unfold buildQueue
    rw [List.foldl_cons, List.foldl_nil]
    unfold queueStep
    rw [hitem]
    dsimp only
    rw [hnew]
    norm_num
  have hsort : sortQueue [item] = [item] := by
    unfold sortQueue
    exact List.mergeSort_singleton item
  refine ⟨item, ⟨0, 1, 1, 1, 20, false, none⟩, ?_, hnew, hscore, rfl, rfl, rfl⟩
  unfold studyQueueHandler
  dsimp only [Option.map_none']
  rw [if_neg (by norm_num : ¬(false = true)),
    if_neg (by norm_num : ¬(false = true))]
  rw [show (none : Option (Option (Finset String))).join = none from rfl]
  rw [hacc]
  dsimp only
  rw [hsort]
  rfl

/-- Folding the accumulation step preserves "totalNew + totalReview equals
the queue length". -/
lemma foldl_counters (allowed : Option (Finset String)) (includeFuture : Bool)
    (fsrsMap : String → Option FsrsRow) (bktMap : String → Option BktRow)
    (now : ℝ) :
    ∀ (cards : List Card) (acc : QueueAccum),
      acc.totalNew + acc.totalReview = acc.queue.length →
      (cards.foldl (queueStep allowed includeFuture fsrsMap bktMap now)
          acc).totalNew +
        (cards.foldl (queueStep allowed includeFuture fsrsMap bktMap now)
          acc).totalReview =
        (cards.foldl (queueStep allowed includeFuture fsrsMap bktMap now)
          acc).queue.length := by
  intro cards
  induction cards with
  | nil => intro acc h; exact h
  | cons c cs ih =>
      intro acc h
      rw [List.foldl_cons]
      apply ih
      unfold queueStep
      cases hp : processCard allowed includeFuture fsrsMap bktMap now c with
      | none => exact h
      | some item =>
          dsimp only
          rw [List.length_append]
          cases hnew : item.is_new <;> simp <;> omega

/-- C10: every successful, non-short-circuited response satisfies
total_due + total_new = total_in_queue and returned = min(limit,
total_in_queue). -/
theorem counters_add_up :
    ∀ (courseId : Option String) (includeFuture : Bool) (limitRaw : Option Int)
      (now : ℝ) (bktRows : List BktRow) (fsrsRows : List FsrsRow)
      (cards : List Card) (db : Db) (faults : DbFaults),
      (∀ cid, courseId = some cid → isUuid cid = true) →
      (∀ cid, courseId = some cid →
        resolveSummaryIdsForCourse db faults cid ≠ none) →
      ∃ (queue : List QueueItem) (meta : Meta),
        studyQueueHandler courseId includeFuture limitRaw now
            (.ok bktRows) (.ok fsrsRows) (.ok cards) db faults =
          .success queue meta ∧
        meta.total_due + meta.total_new = meta.total_in_queue ∧
        meta.returned = min meta.limit meta.total_in_queue := by
  intro courseId includeFuture limitRaw now bktRows fsrsRows cards db faults
    huuid hscope
  cases courseId with
  | none =>
      refine ⟨(sortQueue (buildQueue none includeFuture (buildFsrsMap fsrsRows)
          (buildBktMap bktRows) now cards).queue).take (clampLimit limitRaw),
        { total_due := (buildQueue none includeFuture (buildFsrsMap fsrsRows)
            (buildBktMap bktRows) now cards).totalReview,
          total_new := (buildQueue none includeFuture (buildFsrsMap fsrsRows)
            (buildBktMap bktRows) now cards).totalNew,
          total_in_queue := (buildQueue none includeFuture
            (buildFsrsMap fsrsRows) (buildBktMap bktRows) now
            cards).queue.length,
          returned := ((sortQueue (buildQueue none includeFuture
            (buildFsrsMap fsrsRows) (buildBktMap bktRows) now
            cards).queue).take (clampLimit limitRaw)).length,
          limit := clampLimit limitRaw, include_future := includeFuture,
          course_id := none }, ?_, ?_, ?_⟩
      · unfold studyQueueHandler
        dsimp only [Option.map_none']
        rw [if_neg (by norm_num : ¬(false = true)),
          if_neg (by norm_num : ¬(false = true))]
        rfl
      · dsimp only
        have hcnt := foldl_counters none includeFuture (buildFsrsMap fsrsRows)
          (buildBktMap bktRows) now cards ⟨[], 0, 0⟩ rfl
        unfold buildQueue
        omega
      · dsimp only
        rw [List.length_take]
        unfold sortQueue
        rw [List.length_mergeSort]
  | some cid =>
      have h1 := huuid cid rfl
      have h2 := hscope cid rfl
      cases hres : resolveSummaryIdsForCourse db faults cid with
      | none => exact absurd hres h2
      | some aset =>
          refine ⟨(sortQueue (buildQueue (some aset) includeFuture
              (buildFsrsMap fsrsRows) (buildBktMap bktRows) now
              cards).queue).take (clampLimit limitRaw),
            { total_due := (buildQueue (some aset) includeFuture
                (buildFsrsMap fsrsRows) (buildBktMap bktRows) now
                cards).totalReview,
              total_new := (buildQueue (some aset) includeFuture
                (buildFsrsMap fsrsRows) (buildBktMap bktRows) now
                cards).totalNew,
              total_in_queue := (buildQueue (some aset) includeFuture
                (buildFsrsMap fsrsRows) (buildBktMap bktRows) now
                cards).queue.length,
              returned := ((sortQueue (buildQueue (some aset) includeFuture
                (buildFsrsMap fsrsRows) (buildBktMap bktRows) now
                cards).queue).take (clampLimit limitRaw)).length,
              limit := clampLimit limitRaw, include_future := includeFuture,
              course_id := some cid }, ?_, ?_, ?_⟩
          · unfold studyQueueHandler
            dsimp only [Option.map_some']
            rw [h1, hres]
            rw [if_neg (by norm_num : ¬((!true) = true))]
            rw [if_neg (by norm_num : ¬(false = true))]
            rfl
          · dsimp only
            have hcnt := foldl_counters (some aset) includeFuture
              (buildFsrsMap fsrsRows) (buildBktMap bktRows) now cards
              ⟨[], 0, 0⟩ rfl
            unfold buildQueue
            omega
          · dsimp only
            rw [List.length_take]
            unfold sortQueue
            rw [List.length_mergeSort]

/-- Witness for C10 on the all-empty request. -/
theorem counters_add_up_witness :
    ∃ (queue : List QueueItem) (meta : Meta),
      studyQueueHandler none false none 0 (.ok []) (.ok []) (.ok [])
          ⟨[], [], [], []⟩ noFaults =
        .success queue meta ∧
      meta.total_due + meta.total_new = meta.total_in_queue ∧
      meta.returned = min meta.limit meta.total_in_queue :=
  counters_add_up none false none 0 [] [] [] ⟨[], [], [], []⟩ noFaults
    (fun cid h => by cases h) (fun cid h => by cases h)

end StudyQueue
